import Mathlib

/-!
Verification of the corgi VIN decoder core against its specification.

The development shallowly embeds the TypeScript sources:
  * src/lib/decode.ts        (class VINDecoder: decode, validateStructure,
                              validateCheckDigit, determineModelYear, extractWMI,
                              extract{Vehicle,Plant,Engine}Info, coerceBodyStyle)
  * the pattern matcher      (class PatternMatcher: isCharInRange,
                              matchesSimplePattern, matchesPattern,
                              calculateConfidence, getRawPatternMatches,
                              getPatternMatches, transformPatternMatch)
  * src/lib/types.ts         (enums and result records)

Modelling conventions:
  * JavaScript strings are `List Char`; numbers used for confidence scores are
    `Rat` (the scores are sums of the constants 0.5, 0.7, 0.8, 1.0 divided by
    small integers, so rationals model them exactly); years are `Int`.
  * The storage collaborator (VPICDatabase: getWMI, getValidSchemas,
    getPatterns, lookupValues) is a record of functions supplied as a
    parameter; a call that throws is modelled as `Except.error msg`.
  * `new Date().getFullYear()` is modelled as an explicit `currentYear`
    parameter of the decoder.
  * JavaScript truthiness tests on strings/numbers/options are modelled
    explicitly (empty string and 0 are falsy).
  * Wall-clock metadata (processingTime) and the optional diagnostic arrays
    are outside the embedding's scope; the `processingTime` field is fixed
    to 0 and the query log is omitted.
-/

namespace Corgi

attribute [local semireducible] Rat.add Rat.mul Rat.inv Rat.sub Rat.ofScientific

/-- `Math.max` on exact rationals. -/
def jsMax (a b : Rat) : Rat := if a ≤ b then b else a

/-- `Math.min` on exact rationals. -/
def jsMin (a b : Rat) : Rat := if a ≤ b then a else b

/-- Coerce a Lean string literal to the `List Char` representation used for
JavaScript strings throughout the embedding. -/
def str (s : String) : List Char := s.toList

/-- Character-level `toUpperCase` (the VIN alphabet is ASCII). -/
def jsToUpper (l : List Char) : List Char := l.map Char.toUpper

/-- Character-level `toLowerCase`. -/
def jsToLower (l : List Char) : List Char := l.map Char.toLower

/-- `String.prototype.trim`: strip whitespace from both ends. -/
def jsTrim (l : List Char) : List Char :=
  ((l.dropWhile Char.isWhitespace).reverse.dropWhile Char.isWhitespace).reverse

/-- `a.startsWith b` on character lists. -/
def startsWithL : List Char → List Char → Bool
  | _, [] => true
  | [], _ :: _ => false
  | a :: as, b :: bs => a == b && startsWithL as bs

/-- `hay.includes(needle)`: substring test on character lists. -/
def containsSub (needle hay : List Char) : Bool :=
  match hay with
  | [] => needle == []
  | _ :: rest => startsWithL hay needle || containsSub needle rest

/-!  ## Pattern matcher: character classes and simple patterns
(class PatternMatcher, src pattern module) -/

/-- The scanning loop inside `isCharInRange`, walking the bracket-free class
content.  `i + 2 < content.length && content[i+1] === '-'` recognises a range
and advances by 3; otherwise one literal alternative is consumed. -/
def classMatch (c : Char) : List Char → Bool
  | a :: b :: e :: rest =>
    if b = '-' then
      if a.toNat ≤ c.toNat ∧ c.toNat ≤ e.toNat then true else classMatch c rest
    else
      if c = a then true else classMatch c (b :: e :: rest)
  | a :: rest => if c = a then true else classMatch c rest
  | [] => false

/-- `PatternMatcher.isCharInRange(char, pattern)`: bracketed classes are
scanned by `classMatch`; anything else is compared literally (or is the `*`
wildcard). -/
def isCharInRange (c : Char) (pattern : List Char) : Bool :=
  if pattern.head? = some '[' ∧ pattern.getLast? = some ']' then
    classMatch c ((pattern.drop 1).dropLast)
  else
    pattern == [c] || pattern == ['*']

/-- `pattern.indexOf(']', i)` as a splitter: returns the characters strictly
before the first `]` together with the characters after it, or `none` when no
`]` exists. -/
def splitAtClose : List Char → Option (List Char × List Char)
  | [] => none
  | c :: rest =>
    if c = ']' then some ([], rest)
    else
      match splitAtClose rest with
      | none => none
      | some (cls, r) => some (c :: cls, r)

/-- The lock-step loop of `PatternMatcher.matchesSimplePattern`, taking the
pattern first.  On input exhaustion the source's final check applies: the
match succeeds when the whole pattern was consumed or exactly a trailing `*`
remains. -/
def mspWalk : List Char → List Char → Bool
  | [], _ => true
  | p :: ps, [] => decide (p = '*' ∧ ps = [])
  | p :: ps, i :: is =>
    if p = '[' then
      match splitAtClose ps with
      | none => false
      | some (cls, ps2) =>
        if isCharInRange i ('[' :: cls ++ [']']) then mspWalk ps2 is else false
    else if p = '*' then
      if ps = [] then true else mspWalk ps is
    else
      if i = p then mspWalk ps is else false

/-- `PatternMatcher.matchesSimplePattern(input, pattern)` (argument order as
in the source). -/
def matchesSimplePattern (input pattern : List Char) : Bool :=
  mspWalk pattern input

/-- `pattern.split('|')` (always returns a non-empty list of parts). -/
def splitOnBar : List Char → List (List Char)
  | [] => [[]]
  | c :: rest =>
    if c = '|' then [] :: splitOnBar rest
    else
      match splitOnBar rest with
      | [] => [[c]]
      | h :: t => (c :: h) :: t

/-- The part of the pattern before the first `|`. -/
def actualOf (pattern : List Char) : List Char := (splitOnBar pattern).headD []

/-- The metadata parts after the first `|`. -/
def metadataOf (pattern : List Char) : List (List Char) := (splitOnBar pattern).tail

/-- `PatternMatcher.matchesPattern(input, pattern)`: guards empty arguments,
special-cases 5-character VIS plant patterns carrying `|metadata`, and
otherwise defers to `matchesSimplePattern` on the base pattern. -/
def matchesPattern (input pattern : List Char) : Bool :=
  if input = [] ∨ pattern = [] then false
  else
    let ap := actualOf pattern
    let md := metadataOf pattern
    if md ≠ [] ∧ ap.length = 5 then
      match (md.headD []).get? 1 with
      | some expectedPlantCode =>
        expectedPlantCode == '*' || input.headD ' ' == expectedPlantCode
      | none => false
    else
      matchesSimplePattern input ap

/-!  ## Pattern matcher: confidence scoring -/

/-- Accumulators of the scoring loop inside
`PatternMatcher.calculateConfidence`. -/
structure ConfAcc where
  exact : Rat
  cls : Rat
  wild : Rat
  total : Rat
deriving DecidableEq

/-- The lock-step scoring loop of `calculateConfidence` (pattern first):
character classes contribute 0.7 (range) or 0.8 (explicit list), wildcards
0.5, literals 1.0 when they match exactly; `totalLength` counts the consumed
pattern units.  A class without a closing bracket stops the loop (the
source's `break`). -/
def confWalk : List Char → List Char → ConfAcc
  | [], _ => ⟨0, 0, 0, 0⟩
  | _ :: _, [] => ⟨0, 0, 0, 0⟩
  | p :: ps, i :: is =>
    if p = '[' then
      match splitAtClose ps with
      | none => ⟨0, 0, 0, 0⟩
      | some (cls, ps2) =>
        let contrib : Rat := if cls.contains '-' then 0.7 else 0.8
        let acc := confWalk ps2 is
        ⟨acc.exact, acc.cls + contrib, acc.wild, acc.total + 1⟩
    else if p = '*' then
      let acc := confWalk ps is
      ⟨acc.exact, acc.cls, acc.wild + 1, acc.total + 1⟩
    else
      let acc := confWalk ps is
      ⟨acc.exact + (if p = i then 1 else 0), acc.cls, acc.wild, acc.total + 1⟩

/-- The plant-pattern shape test of `calculateConfidence` and
`matchesPattern`: a metadata part exists and the base pattern has exactly 5
characters. -/
def plantShaped (pattern : List Char) : Bool :=
  decide (metadataOf pattern ≠ [] ∧ (actualOf pattern).length = 5)

/-- `PatternMatcher.calculateConfidence(pattern, input)`.  Plant-shaped
patterns are scored against the metadata character alone (1.0 exact, 0.8
wildcard, 0 otherwise, where an exact match compares the whole input string
with the one-character metadata string); other patterns score 0 unless
`matchesPattern` succeeds, and otherwise the accumulated unit weights divided
by the consumed unit count, clamped to [0, 1]. -/
def calculateConfidence (pattern input : List Char) : Rat :=
  if pattern = [] ∨ input = [] then 0
  else
    let ap := actualOf pattern
    let md := metadataOf pattern
    if md ≠ [] ∧ ap.length = 5 then
      match (md.headD []).get? 1 with
      | some expectedPlantCode =>
        if expectedPlantCode = '*' then 0.8
        else if input = [expectedPlantCode] then 1
        else 0
      | none => 0
    else if ¬ matchesPattern input ap then 0
    else
      let acc := confWalk ap input
      let score := (acc.exact * 1 + acc.cls + acc.wild * 0.5) / acc.total
      jsMin 1 (jsMax 0 score)

/-!  ## Specification-side view of confidence scoring (for claim C7)

The spec describes `calculateConfidence` as a weighted sum over the consumed
pattern units divided by the number of those units.  We parse the pattern
against the input into an explicit list of units and define that formula
independently, then prove the source function equal to it. -/

/-- A pattern unit as consumed by the scoring walk. -/
inductive PatUnit where
  | lit (patChar inputChar : Char)
  | cls (content : List Char)
  | wild
deriving DecidableEq

/-- The units of the pattern consumed while walking it in lock-step with the
input (the same traversal as the scoring loop). -/
def consumedUnits : List Char → List Char → List PatUnit
  | [], _ => []
  | _ :: _, [] => []
  | p :: ps, i :: is =>
    if p = '[' then
      match splitAtClose ps with
      | none => []
      | some (cls, ps2) => PatUnit.cls cls :: consumedUnits ps2 is
    else if p = '*' then
      PatUnit.wild :: consumedUnits ps is
    else
      PatUnit.lit p i :: consumedUnits ps is

/-- The spec's per-unit weight: exactly matching literal 1.0, explicit-list
class 0.8, range class 0.7, wildcard 0.5. -/
def unitWeight : PatUnit → Rat
  | PatUnit.lit p i => if p = i then 1 else 0
  | PatUnit.cls content => if content.contains '-' then 0.7 else 0.8
  | PatUnit.wild => 0.5

/-- Sum of the spec weights of a unit list. -/
def sumWeights (units : List PatUnit) : Rat := (units.map unitWeight).sum

/-- The spec's score formula: sum of unit weights over the unit count,
clamped to [0, 1]. -/
def specScore (units : List PatUnit) : Rat :=
  jsMin 1 (jsMax 0 (sumWeights units / units.length))

/-!  ## Data model (src/lib/types.ts) -/

/-- `enum ErrorSeverity`. -/
inductive ErrorSeverity where
  | warning
  | error
  | fatal
deriving DecidableEq

/-- `enum ErrorCategory` (`STRUCTURE` is rendered `structural`). -/
inductive ErrorCategory where
  | validation
  | structural
  | lookup
  | pattern
  | database
deriving DecidableEq

/-- `enum ErrorCode`. -/
inductive ErrorCode where
  | INVALID_LENGTH
  | INVALID_CHARACTERS
  | INVALID_CHECK_DIGIT
  | INVALID_MODEL_YEAR
  | INVALID_REGION
  | WMI_NOT_FOUND
  | MANUFACTURER_NOT_FOUND
  | MAKE_NOT_FOUND
  | NO_PATTERNS_FOUND
  | LOW_CONFIDENCE_PATTERNS
  | CONFLICTING_PATTERNS
  | DATABASE_CONNECTION_ERROR
  | QUERY_ERROR
  | INVALID_RESULT
deriving DecidableEq

/-- The `DecodeError` union flattened into one record: the per-category extra
fields are optional and only populated by the corresponding constructors in
`decode`. -/
structure DecodeError where
  code : ErrorCode
  category : ErrorCategory
  severity : ErrorSeverity
  message : List Char
  positions : Option (List Int) := none
  details : Option (List Char) := none
  expected : Option Char := none
  actual : Option Char := none
  searchKey : Option (List Char) := none
  searchType : Option (List Char) := none
  confidence : Option Rat := none
deriving DecidableEq

/-- `interface WMIResult`. -/
structure WMIResult where
  code : List Char
  manufacturer : List Char
  country : List Char
  vehicleType : List Char
  region : List Char
  make : List Char
deriving DecidableEq

/-- `source` field of `ModelYearResult`. -/
inductive YearSource where
  | position
  | override
  | calculated
deriving DecidableEq

/-- `interface ModelYearResult`. -/
structure ModelYearResult where
  year : Int
  source : YearSource
  confidence : Rat
deriving DecidableEq

/-- `interface CheckDigitResult`.  The one-character strings `actual` and
`expected` are modelled as characters. -/
structure CheckDigitResult where
  position : Int
  actual : Char
  expected : Char
  isValid : Bool
deriving DecidableEq

/-- `patternType` of a pattern match. -/
inductive PatType where
  | VDS
  | VIS
deriving DecidableEq

/-- The `metadata` sub-record of `interface PatternMatch` (always populated
by `transformPatternMatch`). -/
structure PatternMatchMeta where
  lookupTable : Option (List Char)
  groupName : Option (List Char)
  elementWeight : Rat
  patternType : PatType
  rawPattern : List Char
deriving DecidableEq

/-- `interface PatternMatch` as produced by `transformPatternMatch`. -/
structure PatternMatch where
  element : List Char
  code : List Char
  attributeId : Option (List Char)
  value : Option (List Char)
  confidence : Rat
  positions : List Int
  schema : List Char
  metadata : PatternMatchMeta
deriving DecidableEq

/-- `interface VehicleInfo`. -/
structure VehicleInfo where
  make : List Char
  model : List Char
  year : Int
  series : Option (List Char) := none
  trim : Option (List Char) := none
  bodyStyle : Option (List Char) := none
  driveType : Option (List Char) := none
  fuelType : Option (List Char) := none
  transmission : Option (List Char) := none
  doors : Option (List Char) := none
  manufacturer : Option (List Char) := none
deriving DecidableEq

/-- `interface PlantInfo`. -/
structure PlantInfo where
  country : List Char
  city : Option (List Char)
  manufacturer : Option (List Char)
  code : Option Char
deriving DecidableEq

/-- `interface EngineInfo`. -/
structure EngineInfo where
  model : Option (List Char) := none
  cylinders : Option (List Char) := none
  displacement : Option (List Char) := none
  power : Option (List Char) := none
  fuel : Option (List Char) := none
deriving DecidableEq

/-- `interface VINComponents`. -/
structure VINComponents where
  wmi : Option WMIResult := none
  modelYear : Option ModelYearResult := none
  checkDigit : Option CheckDigitResult := none
  vdsRaw : Option (List Char) := none
  vdsPatterns : List PatternMatch := []
  visRaw : Option (List Char) := none
  visPatterns : List PatternMatch := []
  vehicle : Option VehicleInfo := none
  plant : Option PlantInfo := none
  engine : Option EngineInfo := none
deriving DecidableEq

/-- `interface DiagnosticInfo` (the wall-clock `processingTime` is fixed to 0
and the optional raw-record/query logs are outside the embedding's scope). -/
structure DiagnosticInfo where
  processingTime : Rat := 0
  confidence : Rat := 0
  schemaVersion : List Char := []
  matchedSchema : Option (List Char) := none
  totalPatterns : Option Int := none
deriving DecidableEq

/-- `interface DecodeResult`. -/
structure DecodeResult where
  vin : List Char
  valid : Bool
  components : VINComponents
  errors : List DecodeError
  patterns : Option (List PatternMatch) := none
  metadata : DiagnosticInfo
deriving DecidableEq

/-- `interface DecodeOptions`. -/
structure DecodeOptions where
  includeRawData : Bool := false
  includePatternDetails : Bool := false
  modelYear : Option Int := none
  confidenceThreshold : Option Rat := none
  includeDiagnostics : Bool := false

/-!  ## Storage collaborator (VPICDatabase) and raw pattern rows -/

/-- A row of `getValidSchemas`. -/
structure SchemaRow where
  SchemaId : Int
  SchemaName : List Char
deriving DecidableEq

/-- A raw row of `getPatterns` (`RawPatternRow`).  Database attribute ids may
be numbers in the source; they are represented by their decimal string here,
which is how every use site consumes them (`String(p.AttributeId)`).  `null`
is `none`. -/
structure RawRow where
  Pattern : List Char
  ElementId : Int
  ElementName : List Char
  ElementCode : List Char
  GroupName : Option (List Char)
  Description : Option (List Char)
  LookupTable : Option (List Char)
  AttributeId : Option (List Char)
  SchemaName : List Char
  YearFrom : Int
  YearTo : Option Int
  ElementWeight : Rat
deriving DecidableEq

/-- The storage collaborator: the four query functions the core consumes.
A throwing call is `Except.error` carrying the error message. -/
structure Storage where
  getWMI : List Char → Except (List Char) (Option WMIResult)
  getValidSchemas : List Char → Int → Except (List Char) (List SchemaRow)
  getPatterns : List Int → Except (List Char) (List RawRow)
  lookupValues : List Char → List (List Char) → Except (List Char) (List (List Char × List Char))

/-!  ## Schema/Pattern resolver (PatternMatcher.getRawPatternMatches) -/

/-- The `LOOKUP_TABLES` whitelist (including the source's duplicated
`DaytimeRunningLight` entry). -/
def lookupTables : List (List Char) :=
  [str "DriveType", str "EngineModel", str "EngineConfiguration", str "FuelType",
   str "Transmission", str "BodyStyle", str "GrossVehicleWeightRating",
   str "GrossVehicleWeightRatingTo", str "GrossVehicleWeightRatingFrom",
   str "ChargerLevel", str "ElectrificationLevel", str "EVDriveUnit",
   str "BatteryType", str "Make", str "Model", str "Series", str "Trim",
   str "Turbo", str "DaytimeRunningLight", str "Plant", str "Country",
   str "DaytimeRunningLight", str "DestinationMarket", str "Conversion"]

/-- JavaScript truthiness of a nullable string (`null`, `undefined` and the
empty string are falsy). -/
def jsTruthyOptStr : Option (List Char) → Bool
  | some s => ! s.isEmpty
  | none => false

/-- Step 3 filter: a row with a truthy `LookupTable` survives only when the
table is whitelisted and is not an auxiliary `vNCSA` table. -/
def keepRow (p : RawRow) : Bool :=
  if jsTruthyOptStr p.LookupTable then
    lookupTables.contains (p.LookupTable.getD []) &&
      ! containsSub (str "vNCSA") (p.LookupTable.getD [])
  else true

/-- `String(p.AttributeId)` (`String(null)` is the string `null`). -/
def attrIdString : Option (List Char) → List Char
  | some s => s
  | none => str "null"

/-- `[...new Set(xs)]`: deduplicate keeping first occurrences. -/
def dedupKeepAux : List (List Char) → List (List Char) → List (List Char)
  | [], _ => []
  | x :: xs, seen =>
    if seen.contains x then dedupKeepAux xs seen
    else x :: dedupKeepAux xs (x :: seen)

/-- Deduplicate a list of strings keeping first occurrences. -/
def dedupKeep (l : List (List Char)) : List (List Char) := dedupKeepAux l []

/-- Append `x` to the group keyed `k`, or create that group at the end: the
insertion-order grouping of a JavaScript `Record`. -/
def addToGroups {α : Type} (k : List Char) (x : α) :
    List (List Char × List α) → List (List Char × List α)
  | [] => [(k, [x])]
  | (k2, xs) :: rest =>
    if k2 = k then (k2, xs ++ [x]) :: rest else (k2, xs) :: addToGroups k x rest

/-- Group a list by a string key, preserving key insertion order
(`Record`/`Object.entries` semantics). -/
def groupBy {α : Type} (key : α → List Char) (l : List α) :
    List (List Char × List α) :=
  l.foldl (fun gs x => addToGroups (key x) x gs) []

/-- `Map.get` on the association-list model of a lookup map; later `set`
calls override earlier ones, so the last binding wins. -/
def mapGet (m : List (List Char × List Char)) (k : List Char) : Option (List Char) :=
  (m.reverse.find? (fun e => e.1 == k)).map (fun e => e.2)

/-- `lookupMap.get(attributeId) || pattern.AttributeId`: fall back to the raw
attribute id when the lookup result is absent or falsy. -/
def lookupOrFallback (m : List (List Char × List Char)) (attrId : Option (List Char)) :
    Option (List Char) :=
  match mapGet m (attrIdString attrId) with
  | some v => if v.isEmpty then attrId else some v
  | none => attrId

/-- A pattern row paired with its `ResolvedValue` (step 5 of
`getRawPatternMatches`; `none` models `null`/`undefined`). -/
structure ResolvedRow where
  row : RawRow
  resolvedValue : Option (List Char)
deriving DecidableEq

/-- Resolve one lookup-table group: batch-query the table once; on a thrown
lookup call fall back to the raw attribute ids (the source's inner
try/catch); an empty id list skips the call (`continue`). -/
def resolveGroup (st : Storage) (tableName : List Char) (rows : List RawRow) :
    List ResolvedRow :=
  let ids := dedupKeep (rows.map (fun r => attrIdString r.AttributeId))
  if ids = [] then rows.map (fun r => ⟨r, none⟩)
  else
    match st.lookupValues tableName ids with
    | Except.ok m => rows.map (fun r => ⟨r, lookupOrFallback m r.AttributeId⟩)
    | Except.error _ => rows.map (fun r => ⟨r, r.AttributeId⟩)

/-- `localeCompare` modelled as code-point lexicographic comparison
(result ≤ 0). -/
def lexLe : List Char → List Char → Bool
  | [], _ => true
  | _ :: _, [] => false
  | a :: as, b :: bs => if a = b then lexLe as bs else decide (a.toNat < b.toNat)

/-- Insert into a comparator-sorted list (`le a b` means the comparator
returns ≤ 0 on `(a, b)`, so `a` may precede `b`). -/
def insertLe {α : Type} (le : α → α → Bool) (x : α) : List α → List α
  | [] => [x]
  | y :: ys => if le y x then y :: insertLe le x ys else x :: y :: ys

/-- `Array.prototype.sort` with a comparator, modelled as insertion sort (the
claims never depend on the order of comparator-equal elements). -/
def sortByJS {α : Type} (le : α → α → Bool) : List α → List α
  | [] => []
  | x :: xs => insertLe le x (sortByJS le xs)

/-- Step 7 comparator: `ElementWeight` descending, then the pattern string
ascending. -/
def rowLe (a b : ResolvedRow) : Bool :=
  if a.row.ElementWeight ≠ b.row.ElementWeight then
    b.row.ElementWeight ≤ a.row.ElementWeight
  else lexLe a.row.Pattern b.row.Pattern

/-- Steps 1–7 of `getRawPatternMatches`: fetch schemas and patterns (both may
throw, and the surrounding try/catch rethrows), filter by lookup table,
resolve values per table, and sort by weight. -/
def resolvedSortedRows (st : Storage) (wmi : List Char) (modelYear : Int) :
    Except (List Char) (List ResolvedRow) :=
  match st.getValidSchemas wmi modelYear with
  | Except.error e => Except.error e
  | Except.ok validSchemas =>
    if validSchemas = [] then Except.ok []
    else
      match st.getPatterns (validSchemas.map SchemaRow.SchemaId) with
      | Except.error e => Except.error e
      | Except.ok allPatterns =>
        let filteredPatterns := allPatterns.filter keepRow
        let withoutLookup :=
          (filteredPatterns.filter (fun p => ! jsTruthyOptStr p.LookupTable)).map
            (fun r => ResolvedRow.mk r r.AttributeId)
        let groups :=
          groupBy (fun r => r.LookupTable.getD [])
            (filteredPatterns.filter (fun p => jsTruthyOptStr p.LookupTable))
        let resolvedGroups := groups.map (fun g => resolveGroup st g.1 g.2)
        Except.ok (sortByJS rowLe (withoutLookup ++ resolvedGroups.flatten))

/-- An element name counts as a plant element when its lowercase form
contains the substring `plant`. -/
def isPlantElement (name : List Char) : Bool :=
  containsSub (str "plant") (jsToLower name)

/-- Step 8: the primary schema is the schema of the highest-confidence
`Model` row, scored against `VDS + VIS`; `none` when no `Model` row exists. -/
def primaryOf (rows : List ResolvedRow) (vds vis : List Char) : Option (List Char) :=
  let modelPatterns :=
    (rows.filter (fun r => r.row.ElementName = str "Model")).map
      (fun r => (r, calculateConfidence r.row.Pattern (vds ++ vis)))
  ((sortByJS (fun a b => b.2 ≤ a.2) modelPatterns).head?).map
    (fun p => p.1.row.SchemaName)

/-- The step 9 base confidence: a pattern containing `|` is a VIS pattern
scored against the single character `vis[1]` (`undefined` when `vis` is too
short, which the scorer's guard maps to 0); other patterns are scored
against `VDS + VIS`. -/
def rowBaseConfidence (pattern vds vis : List Char) : Rat :=
  if pattern.contains '|' then
    match vis.get? 1 with
    | some c => calculateConfidence pattern [c]
    | none => calculateConfidence pattern []
  else calculateConfidence pattern (vds ++ vis)

/-- The raw match record built by step 9 of `getRawPatternMatches`. -/
structure RawMatch where
  pattern : List Char
  elementId : Int
  elementName : List Char
  elementCode : List Char
  groupName : Option (List Char)
  description : Option (List Char)
  lookupTable : Option (List Char)
  attributeId : Option (List Char)
  value : Option (List Char)
  schemaName : List Char
  yearFrom : Int
  yearTo : Option Int
  confidence : Rat
  keys : List Char
  elementWeight : Rat
  patternType : PatType
  positions : List Int
deriving DecidableEq

/-- Step 9 of `getRawPatternMatches`: score one resolved row, gate plant
elements on the primary schema (forced to 0 on a schema mismatch when a
truthy primary schema exists, halved when none exists), and compute the VIN
positions the pattern covers. -/
def mkRaw (primarySchema : Option (List Char)) (vds vis : List Char)
    (r : ResolvedRow) : RawMatch :=
  let pattern := r.row.Pattern
  let isVISPattern := pattern.contains '|'
  let baseConfidence := rowBaseConfidence pattern vds vis
  let confidence :=
    if isPlantElement r.row.ElementName then
      if jsTruthyOptStr primarySchema then
        if r.row.SchemaName = primarySchema.getD [] then baseConfidence else 0
      else baseConfidence * 0.5
    else baseConfidence
  let actualPattern := actualOf pattern
  let startPos : Int := if isVISPattern then 9 else 3
  let positions :=
    actualPattern.enum.filterMap
      (fun p => if p.2 ≠ '|' then some (startPos + (p.1 : Int)) else none)
  let value := if jsTruthyOptStr r.resolvedValue then r.resolvedValue else none
  { pattern := pattern
    elementId := r.row.ElementId
    elementName := r.row.ElementName
    elementCode := r.row.ElementCode
    groupName := r.row.GroupName
    description := r.row.Description
    lookupTable := r.row.LookupTable
    attributeId := value
    value := value
    schemaName := r.row.SchemaName
    yearFrom := r.row.YearFrom
    yearTo := r.row.YearTo
    confidence := confidence
    keys := pattern
    elementWeight := r.row.ElementWeight
    patternType := if isVISPattern then PatType.VIS else PatType.VDS
    positions := positions }

/-- `PatternMatcher.getRawPatternMatches`. -/
def getRawPatternMatches (st : Storage) (wmi : List Char) (modelYear : Int)
    (vds vis : List Char) : Except (List Char) (List RawMatch) :=
  match resolvedSortedRows st wmi modelYear with
  | Except.error e => Except.error e
  | Except.ok rows => Except.ok (rows.map (mkRaw (primaryOf rows vds vis) vds vis))

/-!  ## PatternMatcher.getPatternMatches -/

/-- The confidence-threshold filter: plant elements need confidence above
0.3, all other elements above 0.5. -/
def thresholdKeep (m : RawMatch) : Bool :=
  if isPlantElement m.elementName then
    decide ((0.3 : Rat) < m.confidence)
  else
    decide ((0.5 : Rat) < m.confidence)

/-- `PatternMatcher.transformPatternMatch`. -/
def transformPatternMatch (m : RawMatch) : PatternMatch :=
  { element := m.elementName
    code := m.elementCode
    attributeId := m.attributeId
    value := m.value
    confidence := m.confidence
    positions := m.positions
    schema := m.schemaName
    metadata :=
      { lookupTable := m.lookupTable
        groupName := m.groupName
        elementWeight := m.elementWeight
        patternType := m.patternType
        rawPattern := m.pattern } }

/-- The in-group comparator: `elementWeight` descending, confidence
descending on ties. -/
def groupLe (a b : PatternMatch) : Bool :=
  if a.metadata.elementWeight ≠ b.metadata.elementWeight then
    b.metadata.elementWeight ≤ a.metadata.elementWeight
  else b.confidence ≤ a.confidence

/-- The dedup key: the JSON of `(value, positions joined by commas, schema)`
is determined by this triple. -/
def dedupKey (m : PatternMatch) : Option (List Char) × List Int × List Char :=
  (m.value, m.positions, m.schema)

/-- Keep the first occurrence of each dedup key (the `seen` set filter). -/
def dedupByKey : List PatternMatch →
    List (Option (List Char) × List Int × List Char) → List PatternMatch
  | [], _ => []
  | m :: ms, seen =>
    if seen.contains (dedupKey m) then dedupByKey ms seen
    else m :: dedupByKey ms (dedupKey m :: seen)

/-- The pure tail of `getPatternMatches`: threshold filter, transform, group
by element, per-group sort and dedup, and concatenation in group insertion
order. -/
def getPatternMatchesPost (raws : List RawMatch) : List PatternMatch :=
  let transformed := (raws.filter thresholdKeep).map transformPatternMatch
  let groups := groupBy PatternMatch.element transformed
  (groups.map (fun g => dedupByKey (sortByJS groupLe g.2) [])).flatten

/-- `PatternMatcher.getPatternMatches`. -/
def getPatternMatches (st : Storage) (wmi : List Char) (modelYear : Int)
    (vds vis : List Char) : Except (List Char) (List PatternMatch) :=
  match getRawPatternMatches st wmi modelYear vds vis with
  | Except.error e => Except.error e
  | Except.ok raws => Except.ok (getPatternMatchesPost raws)

/-!  ## Positional algorithms (class VINDecoder) -/

/-- The regex `/[0-9A-HJ-NPR-Z]/` on a single character. -/
def isVinBodyChar (c : Char) : Bool :=
  (48 ≤ c.toNat && c.toNat ≤ 57) || (65 ≤ c.toNat && c.toNat ≤ 72) ||
  (74 ≤ c.toNat && c.toNat ≤ 78) || c == 'P' || (82 ≤ c.toNat && c.toNat ≤ 90)

/-- The regex `/[0-9X]/` on a single character. -/
def isCheckDigitChar (c : Char) : Bool :=
  (48 ≤ c.toNat && c.toNat ≤ 57) || c == 'X'

/-- The terminal `INVALID_LENGTH` structure error. -/
def invalidLengthError : DecodeError :=
  { code := ErrorCode.INVALID_LENGTH
    category := ErrorCategory.structural
    severity := ErrorSeverity.error
    message := str "Invalid VIN length" }

/-- The terminal `INVALID_CHARACTERS` structure error (the message's rendered
list of offending characters is elided; the 1-indexed positions are kept). -/
def invalidCharsError (positions : List Int) : DecodeError :=
  { code := ErrorCode.INVALID_CHARACTERS
    category := ErrorCategory.structural
    severity := ErrorSeverity.error
    message := str "Invalid characters"
    positions := some positions }

/-- `VINDecoder.validateStructure`: a length error alone for non-17-character
input, else one `INVALID_CHARACTERS` error collecting every position whose
character fails its class (position 9 must match `[0-9X]`, every other
position `[0-9A-HJ-NPR-Z]`). -/
def validateStructure (vin : List Char) : List DecodeError :=
  if vin.length ≠ 17 then [invalidLengthError]
  else
    let invalidChars := vin.enum.filter
      (fun p => if p.1 = 8 then ! isCheckDigitChar p.2 else ! isVinBodyChar p.2)
    if invalidChars.isEmpty then []
    else [invalidCharsError (invalidChars.map (fun p => ((p.1 : Int) + 1)))]

/-- The check-digit weights of CFR Title 49 § 565.15(c). -/
def checkDigitWeights : List Nat := [8, 7, 6, 5, 4, 3, 2, 10, 0, 9, 8, 7, 6, 5, 4, 3, 2]

/-- The transliteration table inside `validateCheckDigit` (digits map to
themselves; the `default` branch of the switch gives 0). -/
def transliterate (c0 : Char) : Nat :=
  let c := c0.toUpper
  if 48 ≤ c.toNat ∧ c.toNat ≤ 57 then c.toNat - 48
  else if 65 ≤ c.toNat ∧ c.toNat ≤ 90 then
    if c = 'A' then 1 else if c = 'B' then 2 else if c = 'C' then 3
    else if c = 'D' then 4 else if c = 'E' then 5 else if c = 'F' then 6
    else if c = 'G' then 7 else if c = 'H' then 8 else if c = 'J' then 1
    else if c = 'K' then 2 else if c = 'L' then 3 else if c = 'M' then 4
    else if c = 'N' then 5 else if c = 'P' then 7 else if c = 'R' then 9
    else if c = 'S' then 2 else if c = 'T' then 3 else if c = 'U' then 4
    else if c = 'V' then 5 else if c = 'W' then 6 else if c = 'X' then 7
    else if c = 'Y' then 8 else if c = 'Z' then 9 else 0
  else 0

/-- The weighted transliteration sum of `validateCheckDigit`
(`[...vin].reduce((acc, char, idx) => acc + transliterate(char) * weights[idx], 0)`). -/
def checkSum (vin : List Char) : Nat :=
  ((vin.zip checkDigitWeights).map (fun p => transliterate p.1 * p.2)).sum

/-- `VINDecoder.validateCheckDigit`: weighted transliteration sum mod 11,
expecting `X` for remainder 10, else the decimal digit.  Call sites guard a
17-character VIN, so the `zip` truncation and the index-8 default are
unreachable. -/
def validateCheckDigit (vin : List Char) : CheckDigitResult :=
  let sum := checkSum vin
  let calculated := sum % 11
  let expected := if calculated = 10 then 'X' else Char.ofNat (48 + calculated)
  let actual := (vin.getD 8 ' ').toUpper
  { position := 9, actual := actual, expected := expected, isValid := actual == expected }

/-- The insertion sequence of `yearMap.set` calls in `determineModelYear`,
in source order.  The second P–X loop's `code === 'Y'` arm is preserved even
though `String.fromCharCode(80 + i)` with `i < 9` stops at `X` (88), so that
arm never fires and `Y` only receives its first-cycle value — which that
first loop also never assigns (it stops at `X` too). -/
def yearMapEntries : List (Char × Int) :=
  ((List.range 8).map (fun i => (Char.ofNat (65 + i), (1980 + i : Int)))) ++
  ((List.range 5).map (fun i => (Char.ofNat (74 + i), (1988 + i : Int)))) ++
  ((List.range 9).filterMap (fun i =>
    let code := Char.ofNat (80 + i)
    if code ≠ 'Q' ∧ code ≠ 'U' then some (code, (1993 + i : Int)) else none)) ++
  ((List.range 8).map (fun i => (Char.ofNat (65 + i), (2010 + i : Int)))) ++
  ((List.range 5).map (fun i => (Char.ofNat (74 + i), (2018 + i : Int)))) ++
  ((List.range 9).filterMap (fun i =>
    let code := Char.ofNat (80 + i)
    if code = 'P' then some (code, (2023 : Int))
    else if code = 'R' then some (code, (2024 : Int))
    else if code = 'S' then some (code, (2025 : Int))
    else if code = 'T' then some (code, (2026 : Int))
    else if code = 'V' then some (code, (2027 : Int))
    else if code = 'W' then some (code, (2028 : Int))
    else if code = 'X' then some (code, (2029 : Int))
    else if code = 'Y' then some (code, (2030 : Int))
    else none)) ++
  ((List.range 9).map (fun i => (Char.ofNat (49 + i), (2031 + i : Int))))

/-- `yearMap.get`: later `set` calls overwrite earlier ones, so the lookup
returns the last inserted binding. -/
def yearLookup (c : Char) : Option Int :=
  ((yearMapEntries.reverse).find? (fun e => e.1 == c)).map (fun e => e.2)

/-- `VINDecoder.determineModelYear`, with the ambient
`new Date().getFullYear()` supplied as `currentYear`.  The `vin[9]` access is
guarded by the length-17 structure check at the call site, so the `none`
branch for a short VIN is unreachable from `decode`. -/
def determineModelYear (currentYear : Int) (vin : List Char) :
    Option ModelYearResult :=
  match vin.get? 9 with
  | none => none
  | some c0 =>
    let yearChar := c0.toUpper
    match yearLookup yearChar with
    | none => none
    | some baseYear =>
      let nextYear := currentYear + 1
      let adjustedYear := if baseYear > nextYear then baseYear - 30 else baseYear
      some { year := adjustedYear, source := YearSource.position, confidence := 1 }

/-- `VINDecoder.extractWMI`: the first 3 characters, extended by characters
11–13 when the 3rd character is `9` and the VIN has at least 14 characters. -/
def extractWMI (vin : List Char) : List Char :=
  let baseWMI := vin.take 3
  if baseWMI.getD 2 ' ' = '9' ∧ 14 ≤ vin.length then
    baseWMI ++ ((vin.drop 11).take 3)
  else baseWMI

/-!  ## Assembly helpers (extractVehicleInfo, extractPlantInfo,
extractEngineInfo, coerceBodyStyle, findPrimarySchema) -/

/-- `BODY_STYLE_MAP` of src/lib/types.ts, in literal order. -/
def BODY_STYLE_MAP : List (List Char × List Char) :=
  [(str "Sedan/Saloon", str "Sedan"),
   (str "Sedan", str "Sedan"),
   (str "4-Door Sedan", str "Sedan"),
   (str "2-Door Sedan", str "Sedan"),
   (str "4-Door Saloon", str "Sedan"),
   (str "Coupe", str "Coupe"),
   (str "2-Door Coupe", str "Coupe"),
   (str "Convertible", str "Convertible"),
   (str "2-Door Convertible", str "Convertible"),
   (str "4-Door Convertible", str "Convertible"),
   (str "Hatchback", str "Hatchback"),
   (str "3-Door Hatchback", str "Hatchback"),
   (str "5-Door Hatchback", str "Hatchback"),
   (str "Station Wagon", str "Wagon"),
   (str "Wagon", str "Wagon"),
   (str "Sport Utility Vehicle (SUV)/Multi-Purpose Vehicle (MPV)", str "SUV"),
   (str "Sport Utility Vehicle (SUV)", str "SUV"),
   (str "SUV", str "SUV"),
   (str "Crossover Utility Vehicle (CUV)", str "SUV"),
   (str "Crossover", str "SUV"),
   (str "Van", str "Van"),
   (str "Cargo Van", str "Van"),
   (str "Minivan", str "Minivan"),
   (str "Passenger Van", str "Van"),
   (str "Pickup", str "Pickup"),
   (str "Pickup Truck", str "Pickup"),
   (str "Truck", str "Truck"),
   (str "Standard Pickup Truck", str "Pickup"),
   (str "Extended Cab Pickup", str "Pickup"),
   (str "Crew Cab Pickup", str "Pickup"),
   (str "Bus", str "Bus"),
   (str "School Bus", str "Bus"),
   (str "Motorcycle", str "Motorcycle"),
   (str "Incomplete Vehicle", str "Other"),
   (str "Other", str "Other")]

/-- `VINDecoder.coerceBodyStyle`: exact key, then case-insensitive substring
match in either direction over the table in order, then the pickup/truck
keyword heuristic, else `Other`. -/
def coerceBodyStyle (bodyStyle : List Char) : List Char :=
  match BODY_STYLE_MAP.find? (fun e => e.1 == bodyStyle) with
  | some e => e.2
  | none =>
    match BODY_STYLE_MAP.find? (fun e =>
        containsSub (jsToLower e.1) (jsToLower bodyStyle) ||
        containsSub (jsToLower bodyStyle) (jsToLower e.1)) with
    | some e => e.2
    | none =>
      let lowerBody := jsToLower bodyStyle
      if containsSub (str "pickup") lowerBody || containsSub (str "truck") lowerBody
      then str "Pickup"
      else str "Other"

/-- One switch step of the extraction loop in `extractVehicleInfo` (a falsy
`value` is skipped). -/
def vehicleStep (info : VehicleInfo) (p : PatternMatch) : VehicleInfo :=
  if ! jsTruthyOptStr p.value then info
  else
    let v := p.value.getD []
    if p.element = str "Make" then { info with make := v }
    else if p.element = str "Series" then { info with series := some v }
    else if p.element = str "Trim" ∨ p.element = str "Trim Level" then
      { info with trim := some v }
    else if p.element = str "Body Class" ∨ p.element = str "Body Style" then
      { info with bodyStyle := some (coerceBodyStyle v) }
    else if p.element = str "Drive Type" then { info with driveType := some v }
    else if p.element = str "Fuel Type - Primary" then { info with fuelType := some v }
    else if p.element = str "Fuel Type - Secondary" then
      { info with fuelType := some (str "Hybrid") }
    else if p.element = str "Transmission" then { info with transmission := some v }
    else if p.element = str "Doors" then { info with doors := some v }
    else info

/-- `VINDecoder.extractVehicleInfo`: the model comes from the
highest-weight (then highest-confidence) truthy `Model` pattern, the other
fields from the element-name switch. -/
def extractVehicleInfo (patterns : List PatternMatch) (wmiInfo : WMIResult)
    (modelYear : ModelYearResult) : VehicleInfo :=
  let base : VehicleInfo :=
    { make := wmiInfo.make
      model := []
      year := modelYear.year
      manufacturer := some wmiInfo.manufacturer }
  let modelPatterns := sortByJS groupLe
    (patterns.filter (fun p => p.element == str "Model" && jsTruthyOptStr p.value))
  let withModel :=
    match modelPatterns.head? with
    | some m => { base with model := m.value.getD [] }
    | none => base
  patterns.foldl vehicleStep withModel

/-- `VINDecoder.extractPlantInfo`: fold the plant country/city/company
patterns; the plant `code` is always VIN index 10; the record exists only
when a country was found. -/
def extractPlantInfo (patterns : List PatternMatch) (vin : List Char) :
    Option PlantInfo :=
  let folded := patterns.foldl
    (fun (acc : Option (List Char) × Option (List Char) × Option (List Char)) p =>
      if ! jsTruthyOptStr p.value then acc
      else
        let elementName := jsToLower p.element
        if elementName = str "plant country" then
          (some (p.value.getD []), acc.2.1, acc.2.2)
        else if elementName = str "plant city" then
          (acc.1, some (p.value.getD []), acc.2.2)
        else if elementName = str "plant company name" then
          (acc.1, acc.2.1, some (p.value.getD []))
        else acc)
    (none, none, none)
  match folded.1 with
  | some country =>
    some { country := country, city := folded.2.1, manufacturer := folded.2.2,
           code := vin.get? 10 }
  | none => none

/-- One switch step of `extractEngineInfo` (the Bool records
`hasEngineInfo`). -/
def engineStep (acc : EngineInfo × Bool) (p : PatternMatch) : EngineInfo × Bool :=
  if ! jsTruthyOptStr p.value then acc
  else
    let v := p.value.getD []
    let info := acc.1
    if p.element = str "Engine Model" then ({ info with model := some v }, true)
    else if p.element = str "Engine Number of Cylinders" ∨ p.element = str "Cylinders" then
      ({ info with cylinders := some v }, true)
    else if p.element = str "Displacement (L)" then
      ({ info with displacement := some v }, true)
    else if p.element = str "Engine Brake (hp) From" ∨ p.element = str "Engine Power (KW)" then
      ({ info with power := some v }, true)
    else if p.element = str "Fuel Type - Primary" ∨ p.element = str "Fuel Type" then
      ({ info with fuel := some v }, true)
    else acc

/-- `VINDecoder.extractEngineInfo`. -/
def extractEngineInfo (patterns : List PatternMatch) : Option EngineInfo :=
  let folded := patterns.foldl engineStep ({}, false)
  if folded.2 then some folded.1 else none

/-- `VINDecoder.findPrimarySchema`: schema of the highest-confidence `Model`
pattern match. -/
def findPrimarySchema (patterns : List PatternMatch) : Option (List Char) :=
  ((sortByJS (fun a b => b.confidence ≤ a.confidence)
      (patterns.filter (fun p => p.element == str "Model"))).head?).map
    PatternMatch.schema

/-!  ## Decode orchestrator (VINDecoder.decode) -/

/-- The non-terminal warning pushed on a check-digit mismatch. -/
def checkDigitError (cd : CheckDigitResult) : DecodeError :=
  { code := ErrorCode.INVALID_CHECK_DIGIT
    category := ErrorCategory.validation
    severity := ErrorSeverity.warning
    message := str "Invalid check digit"
    positions := some [8]
    expected := some cd.expected
    actual := some cd.actual }

/-- The terminal `INVALID_MODEL_YEAR` error. -/
def modelYearError : DecodeError :=
  { code := ErrorCode.INVALID_MODEL_YEAR
    category := ErrorCategory.validation
    severity := ErrorSeverity.error
    message := str "Could not determine model year"
    positions := some [9] }

/-- The terminal `WMI_NOT_FOUND` lookup error. -/
def wmiNotFoundError (wmi : List Char) : DecodeError :=
  { code := ErrorCode.WMI_NOT_FOUND
    category := ErrorCategory.lookup
    severity := ErrorSeverity.error
    message := str "WMI not found in database"
    searchKey := some wmi
    searchType := some (str "WMI") }

/-- The `QUERY_ERROR` recorded by the inner pattern-stage catch. -/
def patternQueryError (details : List Char) : DecodeError :=
  { code := ErrorCode.QUERY_ERROR
    category := ErrorCategory.database
    severity := ErrorSeverity.error
    message := str "Error matching patterns"
    details := some details }

/-- The `QUERY_ERROR` recorded by the outer catch-all. -/
def unexpectedQueryError (details : List Char) : DecodeError :=
  { code := ErrorCode.QUERY_ERROR
    category := ErrorCategory.database
    severity := ErrorSeverity.error
    message := str "Unexpected error during decoding"
    details := some details }

/-- The terminal `NO_PATTERNS_FOUND` error. -/
def noPatternsError : DecodeError :=
  { code := ErrorCode.NO_PATTERNS_FOUND
    category := ErrorCategory.pattern
    severity := ErrorSeverity.error
    message := str "No matching patterns found" }

/-- The non-terminal `LOW_CONFIDENCE_PATTERNS` warning. -/
def lowConfidenceError (confidence : Rat) : DecodeError :=
  { code := ErrorCode.LOW_CONFIDENCE_PATTERNS
    category := ErrorCategory.pattern
    severity := ErrorSeverity.warning
    message := str "Low confidence in pattern matches"
    confidence := some confidence }

/-- `const cleanVin = vin.toUpperCase().trim()` (line 74 of decode.ts): the
normalisation `decode` itself applies before any validation. -/
def cleanVIN (vin : List Char) : List Char := jsTrim (jsToUpper vin)

/-- Step 3 of `decode`: `options.modelYear ? override : positional` — the
truthiness test means an explicit 0 falls through to positional
derivation. -/
def decodeModelYear (currentYear : Int) (options : DecodeOptions)
    (cleanVin : List Char) : Option ModelYearResult :=
  match options.modelYear with
  | some y =>
    if y ≠ 0 then some { year := y, source := YearSource.override, confidence := 1 }
    else determineModelYear currentYear cleanVin
  | none => determineModelYear currentYear cleanVin

/-- `options.confidenceThreshold || 0.5` (a 0 threshold falls back to 0.5). -/
def avgConfThreshold (options : DecodeOptions) : Rat :=
  match options.confidenceThreshold with
  | some t => if t ≠ 0 then t else 0.5
  | none => 0.5

/-- `VINDecoder.decode`.  The outer try/catch of the source can only be
entered through a throwing `getWMI` call (every other statement outside the
inner pattern-stage try is pure and the `vin[9]` access is guarded by the
length check), so that branch appears as the `getWMI` error case; the inner
try/catch around the pattern stage appears as the `getPatternMatches` error
case. -/
def decode (st : Storage) (currentYear : Int) (vin : List Char)
    (options : DecodeOptions) : DecodeResult :=
  let cleanVin := cleanVIN vin
  let result0 : DecodeResult :=
    { vin := cleanVin
      valid := false
      components := {}
      errors := []
      metadata := { processingTime := 0, confidence := 0, schemaVersion := str "1.0" } }
  match validateStructure cleanVin with
  | e :: es => { result0 with errors := e :: es }
  | [] =>
    let checkDigit := validateCheckDigit cleanVin
    let comps1 : VINComponents := { checkDigit := some checkDigit }
    let errs1 : List DecodeError :=
      if checkDigit.isValid then [] else [checkDigitError checkDigit]
    match decodeModelYear currentYear options cleanVin with
    | none =>
      { result0 with components := comps1, errors := errs1 ++ [modelYearError] }
    | some modelYear =>
      let comps2 := { comps1 with modelYear := some modelYear }
      let wmi := extractWMI cleanVin
      match st.getWMI wmi with
      | Except.error e =>
        { result0 with components := comps2, errors := errs1 ++ [unexpectedQueryError e] }
      | Except.ok none =>
        { result0 with components := comps2, errors := errs1 ++ [wmiNotFoundError wmi] }
      | Except.ok (some wmiInfo) =>
        let comps3 := { comps2 with wmi := some wmiInfo }
        let vds := (cleanVin.drop 3).take 6
        let vis := (cleanVin.drop 9).take 8
        match getPatternMatches st wmi modelYear.year vds vis with
        | Except.error e =>
          { result0 with components := comps3, errors := errs1 ++ [patternQueryError e] }
        | Except.ok [] =>
          { result0 with components := comps3, errors := errs1 ++ [noPatternsError] }
        | Except.ok (p0 :: prest) =>
          let patterns := p0 :: prest
          let vdsPatterns := patterns.filter (fun m => m.metadata.patternType == PatType.VDS)
          let visPatterns := patterns.filter (fun m => m.metadata.patternType == PatType.VIS)
          let comps4 :=
            { comps3 with
              vdsRaw := if vdsPatterns.isEmpty then none else some vds
              vdsPatterns := vdsPatterns
              visRaw := if visPatterns.isEmpty then none else some vis
              visPatterns := visPatterns
              vehicle := some (extractVehicleInfo patterns wmiInfo modelYear)
              plant := extractPlantInfo patterns cleanVin
              engine := extractEngineInfo patterns }
          let avgConfidence :=
            (patterns.map PatternMatch.confidence).sum / (patterns.length : Rat)
          let errs2 := errs1 ++
            (if avgConfidence < avgConfThreshold options
             then [lowConfidenceError avgConfidence] else [])
          let valid :=
            errs2.all (fun e => e.severity == ErrorSeverity.warning) || errs2.isEmpty
          { vin := cleanVin
            valid := valid
            components := comps4
            errors := errs2
            patterns := if options.includePatternDetails then some patterns else none
            metadata :=
              { processingTime := 0
                confidence := avgConfidence
                schemaVersion := str "1.0"
                matchedSchema := findPrimarySchema patterns
                totalPatterns := some (patterns.length : Int) } }

/-!  ## Specification-side formulas and concrete scenarios used by the
verification -/

/-- The claim-side check-digit sum: transliterated characters multiplied by
the position weights over indices 0..16. -/
def checkSumSpec (vin : List Char) : Nat :=
  Finset.sum (Finset.range 17)
    (fun i => transliterate (vin.getD i ' ') * (checkDigitWeights.getD i 0))

/-- The second-cycle and digit entries of the year map, in reversed insertion
order (the entries a lookup reaches first). -/
def yearEntriesRecent : List (Char × Int) :=
  [('9', 2039), ('8', 2038), ('7', 2037), ('6', 2036), ('5', 2035), ('4', 2034),
   ('3', 2033), ('2', 2032), ('1', 2031),
   ('X', 2029), ('W', 2028), ('V', 2027), ('T', 2026), ('S', 2025), ('R', 2024), ('P', 2023),
   ('N', 2022), ('M', 2021), ('L', 2020), ('K', 2019), ('J', 2018),
   ('H', 2017), ('G', 2016), ('F', 2015), ('E', 2014), ('D', 2013), ('C', 2012),
   ('B', 2011), ('A', 2010)]

/-- The first-cycle entries, in reversed insertion order; every key here is
shadowed by a later (second-cycle) binding for the same character. -/
def yearEntriesOld : List (Char × Int) :=
  [('X', 2001), ('W', 2000), ('V', 1999), ('T', 1997), ('S', 1996), ('R', 1995), ('P', 1993),
   ('N', 1992), ('M', 1991), ('L', 1990), ('K', 1989), ('J', 1988),
   ('H', 1987), ('G', 1986), ('F', 1985), ('E', 1984), ('D', 1983), ('C', 1982),
   ('B', 1981), ('A', 1980)]

/-- A pattern character that is a plain literal (not a wildcard, class
opener, or metadata separator). -/
def isLiteralChar (c : Char) : Bool := decide (c ≠ '*' ∧ c ≠ '[' ∧ c ≠ '|')

/-- A storage behaviour with an empty reference database: every lookup
succeeds and finds nothing. -/
def stNone : Storage :=
  { getWMI := fun _ => Except.ok none
    getValidSchemas := fun _ _ => Except.ok []
    getPatterns := fun _ => Except.ok []
    lookupValues := fun _ _ => Except.ok [] }

/-- A WMI record for the Honda test VINs. -/
def wmiHonda : WMIResult :=
  { code := str "1HG", manufacturer := str "HONDA MOTOR CO", country := str "UNITED STATES"
    vehicleType := str "PASSENGER CAR", region := str "NORTH AMERICA", make := str "HONDA" }

/-- A pattern row whose fully literal pattern matches the Honda test VIN's
`VDS + VIS` exactly and resolves through the whitelisted `FuelType` table. -/
def rowFuel : RawRow :=
  { Pattern := str "CM82633A004352", ElementId := 1, ElementName := str "Fuel Type - Primary"
    ElementCode := str "FT", GroupName := none, Description := none
    LookupTable := some (str "FuelType"), AttributeId := some (str "5")
    SchemaName := str "S", YearFrom := 2000, YearTo := none, ElementWeight := 1 }

/-- A storage behaviour whose lookup-table resolution always throws while
every other query succeeds. -/
def stLookupDown : Storage :=
  { getWMI := fun _ => Except.ok (some wmiHonda)
    getValidSchemas := fun _ _ => Except.ok [{ SchemaId := 1, SchemaName := str "S" }]
    getPatterns := fun _ => Except.ok [rowFuel]
    lookupValues := fun _ _ => Except.error (str "lookup down") }

/-- A storage behaviour whose WMI lookup always throws. -/
def stWMIDown : Storage :=
  { getWMI := fun _ => Except.error (str "db down")
    getValidSchemas := fun _ _ => Except.ok []
    getPatterns := fun _ => Except.ok []
    lookupValues := fun _ _ => Except.ok [] }

/-- A `Model` pattern row whose schema name is the empty string (a falsy
primary schema). -/
def rowModelEmptySchema : RawRow :=
  { Pattern := str "ZZZ", ElementId := 1, ElementName := str "Model"
    ElementCode := str "MD", GroupName := none, Description := none
    LookupTable := none, AttributeId := some (str "M1")
    SchemaName := [], YearFrom := 2000, YearTo := none, ElementWeight := 5 }

/-- A VIS plant-code pattern row from schema `X` whose metadata character
matches the test VIN's plant code exactly. -/
def rowPlantX : RawRow :=
  { Pattern := str "*****|*A", ElementId := 2, ElementName := str "Plant Country"
    ElementCode := str "PC", GroupName := none, Description := none
    LookupTable := none, AttributeId := some (str "USA")
    SchemaName := str "X", YearFrom := 2000, YearTo := none, ElementWeight := 3 }

/-- A storage behaviour combining the falsy-schema `Model` row with the
schema-`X` plant row. -/
def stP : Storage :=
  { getWMI := fun _ => Except.ok none
    getValidSchemas := fun _ _ => Except.ok [{ SchemaId := 1, SchemaName := [] },
                                             { SchemaId := 2, SchemaName := str "X" }]
    getPatterns := fun _ => Except.ok [rowModelEmptySchema, rowPlantX]
    lookupValues := fun _ _ => Except.ok [] }

/-- The rows `resolvedSortedRows stP` produces. -/
def rowsP : List ResolvedRow :=
  [{ row := rowModelEmptySchema, resolvedValue := some (str "M1") },
   { row := rowPlantX, resolvedValue := some (str "USA") }]

/-- The plant-element pattern match that survives the pipeline run on `stP`
even though its schema differs from the `Model` row's schema. -/
def plantMatchX : PatternMatch :=
  { element := str "Plant Country", code := str "PC"
    attributeId := some (str "USA"), value := some (str "USA")
    confidence := 1/2, positions := [9, 10, 11, 12, 13]
    schema := str "X"
    metadata := { lookupTable := none, groupName := none, elementWeight := 3
                  patternType := PatType.VIS, rawPattern := str "*****|*A" } }

/-!  ## Helper lemmas -/

theorem validateStructure_severity {vin : List Char} {e : DecodeError}
    (h : e ∈ validateStructure vin) : e.severity = ErrorSeverity.error := by
  unfold validateStructure at h
  split at h
  · simp at h
    subst h
    rfl
  · dsimp only at h
    split at h
    · simp at h
    · simp at h
      subst h
      rfl

theorem all_or_isEmpty (l : List DecodeError) (p : DecodeError → Bool) :
    (l.all p || l.isEmpty) = l.all p := by
  cases l <;> simp

theorem checkSum_eq_spec (vin : List Char) (h : vin.length = 17) :
    checkSum vin = checkSumSpec vin := by
  rcases vin with _ | ⟨c0, vin⟩; · simp at h
  rcases vin with _ | ⟨c1, vin⟩; · simp at h
  rcases vin with _ | ⟨c2, vin⟩; · simp at h
  rcases vin with _ | ⟨c3, vin⟩; · simp at h
  rcases vin with _ | ⟨c4, vin⟩; · simp at h
  rcases vin with _ | ⟨c5, vin⟩; · simp at h
  rcases vin with _ | ⟨c6, vin⟩; · simp at h
  rcases vin with _ | ⟨c7, vin⟩; · simp at h
  rcases vin with _ | ⟨c8, vin⟩; · simp at h
  rcases vin with _ | ⟨c9, vin⟩; · simp at h
  rcases vin with _ | ⟨c10, vin⟩; · simp at h
  rcases vin with _ | ⟨c11, vin⟩; · simp at h
  rcases vin with _ | ⟨c12, vin⟩; · simp at h
  rcases vin with _ | ⟨c13, vin⟩; · simp at h
  rcases vin with _ | ⟨c14, vin⟩; · simp at h
  rcases vin with _ | ⟨c15, vin⟩; · simp at h
  rcases vin with _ | ⟨c16, vin⟩; · simp at h
  rcases vin with _ | ⟨c17, vin⟩
  · simp [checkSum, checkSumSpec, Finset.sum_range_succ, checkDigitWeights]
    ring
  · simp at h

theorem validateCheckDigit_formula (vin : List Char) (h : vin.length = 17) :
    (validateCheckDigit vin).expected
      = (if checkSumSpec vin % 11 = 10 then 'X'
         else Char.ofNat (48 + checkSumSpec vin % 11)) ∧
    (validateCheckDigit vin).isValid
      = ((vin.getD 8 ' ').toUpper == (validateCheckDigit vin).expected) := by
  constructor
  · show (if checkSum vin % 11 = 10 then 'X' else Char.ofNat (48 + checkSum vin % 11)) = _
    rw [checkSum_eq_spec vin h]
  · rfl

theorem decode_checkDigit_warning (st : Storage) (cy : Int) (vin : List Char)
    (opts : DecodeOptions)
    (hs : validateStructure (cleanVIN vin) = [])
    (hcd : (validateCheckDigit (cleanVIN vin)).isValid = false) :
    (∃ e ∈ (decode st cy vin opts).errors,
        e.code = ErrorCode.INVALID_CHECK_DIGIT ∧ e.severity = ErrorSeverity.warning) ∧
    (decode st cy vin opts).components.checkDigit = some (validateCheckDigit (cleanVIN vin)) ∧
    (∀ my, decodeModelYear cy opts (cleanVIN vin) = some my →
      (decode st cy vin opts).components.modelYear = some my) := by
  unfold decode
  dsimp only
  rw [hs, hcd]
  dsimp only
  rcases h2 : decodeModelYear cy opts (cleanVIN vin) with _ | my
  · refine ⟨⟨checkDigitError (validateCheckDigit (cleanVIN vin)), by simp, rfl, rfl⟩, rfl, ?_⟩
    intro my hmy
    cases hmy
  · cases h3 : st.getWMI (extractWMI (cleanVIN vin)) with
    | error emsg =>
      refine ⟨⟨checkDigitError (validateCheckDigit (cleanVIN vin)), by simp, rfl, rfl⟩, rfl, ?_⟩
      intro my2 hmy
      cases hmy
      rfl
    | ok o =>
      cases o with
      | none =>
        refine ⟨⟨checkDigitError (validateCheckDigit (cleanVIN vin)), by simp, rfl, rfl⟩, rfl, ?_⟩
        intro my2 hmy
        cases hmy
        rfl
      | some w =>
        cases h4 : getPatternMatches st (extractWMI (cleanVIN vin)) my.year
            ((cleanVIN vin).drop 3 |>.take 6) ((cleanVIN vin).drop 9 |>.take 8) with
        | error emsg =>
          refine ⟨⟨checkDigitError (validateCheckDigit (cleanVIN vin)), by simp [h4], rfl, rfl⟩,
            by simp [h4], ?_⟩
          intro my2 hmy
          cases hmy
          simp [h4]
        | ok ps =>
          cases ps with
          | nil =>
            refine ⟨⟨checkDigitError (validateCheckDigit (cleanVIN vin)), by simp [h4], rfl, rfl⟩,
              by simp [h4], ?_⟩
            intro my2 hmy
            cases hmy
            simp [h4]
          | cons p0 prest =>
            refine ⟨⟨checkDigitError (validateCheckDigit (cleanVIN vin)), by simp [h4], rfl, rfl⟩,
              by simp [h4], ?_⟩
            intro my2 hmy
            cases hmy
            simp [h4]

theorem yearLookup_bounds (c : Char) (b : Int) (h : yearLookup c = some b) :
    2010 ≤ b ∧ b ≤ 2039 := by
  have hsplit : yearMapEntries.reverse = yearEntriesRecent ++ yearEntriesOld := by decide
  unfold yearLookup at h
  rw [hsplit, List.find?_append] at h
  cases hfa : yearEntriesRecent.find? (fun e => e.1 == c) with
  | some e =>
    rw [hfa] at h
    simp at h
    have hmem := List.mem_of_find?_eq_some hfa
    have hall : ∀ x ∈ yearEntriesRecent, 2010 ≤ x.2 ∧ x.2 ≤ 2039 := by decide
    have := hall e hmem
    omega
  | none =>
    rw [hfa] at h
    simp at h
    obtain ⟨w, hfb⟩ := h
    have hmem := List.mem_of_find?_eq_some hfb
    have hpe := List.find?_some hfb
    have hkeys : ∀ x ∈ yearEntriesOld, ∃ y ∈ yearEntriesRecent, y.1 = x.1 := by decide
    obtain ⟨y, hy, hyx⟩ := hkeys (w, b) hmem
    have hnone := (List.find?_eq_none.mp hfa) y hy
    simp at hpe hnone
    rw [hyx] at hnone
    exact absurd hpe hnone

theorem clamp01 (x : Rat) : 0 ≤ jsMin 1 (jsMax 0 x) ∧ jsMin 1 (jsMax 0 x) ≤ 1 := by
  unfold jsMin jsMax
  split_ifs <;> constructor <;> linarith

theorem splitOnBar_no_bar {p : List Char} (h : '|' ∉ p) : splitOnBar p = [p] := by
  induction p with
  | nil => rfl
  | cons c rest ih =>
    have hc : ¬ c = '|' := by
      rintro rfl
      exact h (by simp)
    have ih2 := ih (fun hm => h (List.mem_cons_of_mem _ hm))
    simp only [splitOnBar, if_neg hc, ih2]

theorem mspWalk_lit_refl {p : List Char} (h : p.all isLiteralChar = true) :
    mspWalk p p = true := by
  induction p with
  | nil => rfl
  | cons c rest ih =>
    simp only [List.all_cons, Bool.and_eq_true, isLiteralChar, decide_eq_true_eq] at h
    obtain ⟨⟨h1, h2, h3⟩, hr⟩ := h
    have ih2 := ih (by simpa [List.all_eq_true, isLiteralChar] using hr)
    simp [mspWalk, h1, h2, ih2]

theorem consumedUnits_lit_refl {p : List Char} (h : p.all isLiteralChar = true) :
    consumedUnits p p = p.map (fun c => PatUnit.lit c c) := by
  induction p with
  | nil => rfl
  | cons c rest ih =>
    simp only [List.all_cons, Bool.and_eq_true, isLiteralChar, decide_eq_true_eq] at h
    obtain ⟨⟨h1, h2, h3⟩, hr⟩ := h
    have ih2 := ih (by simpa [List.all_eq_true, isLiteralChar] using hr)
    simp [consumedUnits, h1, h2, ih2]

theorem sumWeights_lits (l : List Char) :
    sumWeights (l.map (fun c => PatUnit.lit c c)) = (l.length : Rat) := by
  induction l with
  | nil => rfl
  | cons c rest ih =>
    simp [sumWeights, unitWeight, List.map_cons, List.sum_cons] at ih ⊢
    rw [ih]
    ring

theorem confWalk_spec (p i : List Char) :
    (confWalk p i).exact * 1 + (confWalk p i).cls + (confWalk p i).wild * 0.5
        = sumWeights (consumedUnits p i) ∧
    (confWalk p i).total = ((consumedUnits p i).length : Rat) := by
  induction p, i using confWalk.induct with
  | case1 t => simp [confWalk, consumedUnits, sumWeights]
  | case2 p ps => simp [confWalk, consumedUnits, sumWeights]
  | case3 ps i is hnone => simp [confWalk, consumedUnits, hnone, sumWeights]
  | case4 ps i is cls r hsome ih =>
    simp [confWalk, consumedUnits, hsome, sumWeights, unitWeight] at ih ⊢
    constructor
    · rw [← ih.1]; ring
    · rw [ih.2]
      try push_cast
      try ring
  | case5 ps i is hne ih =>
    simp [confWalk, consumedUnits, sumWeights, unitWeight] at ih ⊢
    constructor
    · rw [← ih.1]; ring
    · rw [ih.2]
      try push_cast
      try ring
  | case6 p ps i is hnb hns ih =>
    simp [confWalk, consumedUnits, hnb, hns, sumWeights, unitWeight] at ih ⊢
    constructor
    · rw [← ih.1]; split <;> ring
    · rw [ih.2]
      try push_cast
      try ring

theorem mem_insertLe {α : Type} {le : α → α → Bool} {x y : α} {l : List α}
    (h : x ∈ insertLe le y l) : x = y ∨ x ∈ l := by
  induction l with
  | nil => simpa [insertLe] using h
  | cons z zs ih =>
    simp only [insertLe] at h
    by_cases hle : le z y = true
    · rw [if_pos hle] at h
      rcases List.mem_cons.mp h with h2 | h2
      · exact Or.inr (List.mem_cons.mpr (Or.inl h2))
      · rcases ih h2 with h3 | h3
        · exact Or.inl h3
        · exact Or.inr (List.mem_cons.mpr (Or.inr h3))
    · rw [if_neg hle] at h
      rcases List.mem_cons.mp h with h2 | h2
      · exact Or.inl h2
      · exact Or.inr h2

theorem mem_sortByJS {α : Type} {le : α → α → Bool} {x : α} {l : List α}
    (h : x ∈ sortByJS le l) : x ∈ l := by
  induction l with
  | nil => simpa [sortByJS] using h
  | cons z zs ih =>
    simp only [sortByJS] at h
    rcases mem_insertLe h with h2 | h2
    · simp [h2]
    · simp [ih h2]

theorem mem_dedupByKey {x : PatternMatch} :
    ∀ {l : List PatternMatch} {seen : List (Option (List Char) × List Int × List Char)},
    x ∈ dedupByKey l seen → x ∈ l := by
  intro l
  induction l with
  | nil => intro seen h; simpa [dedupByKey] using h
  | cons m ms ih =>
    intro seen h
    simp only [dedupByKey] at h
    by_cases hc : seen.contains (dedupKey m) = true
    · rw [if_pos hc] at h
      exact List.mem_cons.mpr (Or.inr (ih h))
    · rw [if_neg hc] at h
      rcases List.mem_cons.mp h with h2 | h2
      · exact List.mem_cons.mpr (Or.inl h2)
      · exact List.mem_cons.mpr (Or.inr (ih h2))

theorem mem_addToGroups {α : Type} {k : List Char} {y x : α}
    {g : List Char × List α} :
    ∀ {gs : List (List Char × List α)}, g ∈ addToGroups k y gs → x ∈ g.2 →
    (∃ g0 ∈ gs, x ∈ g0.2) ∨ x = y := by
  intro gs
  induction gs with
  | nil =>
    intro hg hx
    simp [addToGroups] at hg
    subst hg
    simp at hx
    exact Or.inr hx
  | cons g1 grest ih =>
    intro hg hx
    simp only [addToGroups] at hg
    split at hg
    · rcases (by simpa using hg) with hg2 | hg2
      · subst hg2
        simp at hx
        rcases hx with hx | hx
        · exact Or.inl ⟨g1, by simp, hx⟩
        · exact Or.inr hx
      · exact Or.inl ⟨g, by simp [hg2], hx⟩
    · rcases (by simpa using hg) with hg2 | hg2
      · exact Or.inl ⟨g, by simp [hg2], hx⟩
      · rcases ih hg2 hx with ⟨g0, hg0, hxg⟩ | hxy
        · exact Or.inl ⟨g0, by simp [hg0], hxg⟩
        · exact Or.inr hxy

theorem mem_groupBy {α : Type} {key : α → List Char} {x : α}
    {g : List Char × List α} :
    ∀ {l : List α} {gs0 : List (List Char × List α)},
    g ∈ l.foldl (fun gs z => addToGroups (key z) z gs) gs0 → x ∈ g.2 →
    (∃ g0 ∈ gs0, x ∈ g0.2) ∨ x ∈ l := by
  intro l
  induction l with
  | nil =>
    intro gs0 hg hx
    exact Or.inl ⟨g, by simpa using hg, hx⟩
  | cons z zs ih =>
    intro gs0 hg hx
    simp only [List.foldl_cons] at hg
    rcases ih hg hx with ⟨g0, hg0, hxg⟩ | hxz
    · rcases mem_addToGroups hg0 hxg with ⟨g1, hg1, hxg1⟩ | hxy
      · exact Or.inl ⟨g1, hg1, hxg1⟩
      · exact Or.inr (by simp [hxy])
    · exact Or.inr (by simp [hxz])

theorem mem_getPatternMatchesPost {m : PatternMatch} {raws : List RawMatch}
    (h : m ∈ getPatternMatchesPost raws) :
    ∃ r ∈ raws, thresholdKeep r = true ∧ m = transformPatternMatch r := by
  unfold getPatternMatchesPost at h
  dsimp only at h
  rw [List.mem_flatten] at h
  obtain ⟨l2, hl2, hm⟩ := h
  rw [List.mem_map] at hl2
  obtain ⟨g, hg, rfl⟩ := hl2
  have hmg : m ∈ g.2 := mem_sortByJS (mem_dedupByKey hm)
  have := mem_groupBy (x := m) (g := g) hg hmg
  rcases this with ⟨g0, hg0, _⟩ | hmem
  · simp at hg0
  · rw [List.mem_map] at hmem
    obtain ⟨r, hr, rfl⟩ := hmem
    rw [List.mem_filter] at hr
    exact ⟨r, hr.1, hr.2, rfl⟩

/-!  ## Claim theorems -/

/-- Claim C1: for every input string and every behaviour of the storage
collaborator, the `DecodeResult` returned by `decode` has `valid = true` if
and only if every entry of its `errors` list has severity `warning` (in
particular `valid = true` when `errors` is empty), across all exit paths,
including the early terminal returns. -/
theorem decode_valid_iff_all_warnings (st : Storage) (cy : Int) (vin : List Char)
    (opts : DecodeOptions) :
    (decode st cy vin opts).valid
      = (decode st cy vin opts).errors.all (fun e => e.severity == ErrorSeverity.warning) := by
  unfold decode
  dsimp only
  rcases h1 : validateStructure (cleanVIN vin) with _ | ⟨e, es⟩
  · rcases h2 : decodeModelYear cy opts (cleanVIN vin) with _ | my
    · simp [List.all_append, modelYearError]
    · cases h3 : st.getWMI (extractWMI (cleanVIN vin)) with
      | error emsg => simp [List.all_append, unexpectedQueryError]
      | ok o =>
        cases o with
        | none => simp [List.all_append, wmiNotFoundError]
        | some w =>
          cases h4 : getPatternMatches st (extractWMI (cleanVIN vin)) my.year
              ((cleanVIN vin).drop 3 |>.take 6) ((cleanVIN vin).drop 9 |>.take 8) with
          | error emsg => simp [h4, List.all_append, patternQueryError]
          | ok ps =>
            cases ps with
            | nil => simp [h4, List.all_append, noPatternsError]
            | cons p0 prest => simp [h4, all_or_isEmpty, checkDigitError, lowConfidenceError]
  · have he : e.severity = ErrorSeverity.error := by
      apply @validateStructure_severity (cleanVIN vin)
      rw [h1]
      exact List.mem_cons_self _ _
    simp [List.all_cons, he]

/-- Claim C2, counterexample: the claim also names lookup-table resolution
among the storage calls whose throwing is recorded as a `DATABASE`-category
`QUERY_ERROR` entry.  Against `stLookupDown` — whose `lookupValues` always
throws while the other queries succeed — `decode` completes with an empty
error list (the resolver's inner catch falls back to the raw attribute ids),
so no such entry is recorded. -/
theorem decode_lookupValues_throw_not_recorded :
    (∀ (t : List Char) (ids : List (List Char)),
        stLookupDown.lookupValues t ids = Except.error (str "lookup down")) ∧
    (decode stLookupDown 2026 (str "1HGCM82633A004352") {}).errors = [] ∧
    (decode stLookupDown 2026 (str "1HGCM82633A004352") {}).valid = true :=
  ⟨fun _ _ => rfl, by decide, by decide⟩

/-- Claim C2, amended: `decode` never propagates an exception (it is total on
every storage behaviour); a throwing WMI lookup, and a throwing schema or
pattern query surfacing through `getPatternMatches`, are recorded as
`DATABASE`-category `QUERY_ERROR` entries; a throwing lookup-table
resolution is instead swallowed by the resolver's fallback to raw attribute
ids and leaves no error entry. -/
theorem decode_storage_failure_recorded (st : Storage) (cy : Int) (vin : List Char)
    (opts : DecodeOptions) (my : ModelYearResult)
    (hs : validateStructure (cleanVIN vin) = [])
    (hmy : decodeModelYear cy opts (cleanVIN vin) = some my) :
    (∀ msg, st.getWMI (extractWMI (cleanVIN vin)) = Except.error msg →
      ∃ err ∈ (decode st cy vin opts).errors,
        err.code = ErrorCode.QUERY_ERROR ∧ err.category = ErrorCategory.database) ∧
    (∀ w msg, st.getWMI (extractWMI (cleanVIN vin)) = Except.ok (some w) →
      getPatternMatches st (extractWMI (cleanVIN vin)) my.year
          ((cleanVIN vin).drop 3 |>.take 6) ((cleanVIN vin).drop 9 |>.take 8)
        = Except.error msg →
      ∃ err ∈ (decode st cy vin opts).errors,
        err.code = ErrorCode.QUERY_ERROR ∧ err.category = ErrorCategory.database) := by
  constructor
  · intro msg hw
    unfold decode
    dsimp only
    rw [hs]
    dsimp only
    rw [hmy]
    dsimp only
    rw [hw]
    refine ⟨unexpectedQueryError msg, ?_, rfl, rfl⟩
    simp [unexpectedQueryError]
  · intro w msg hw hp
    unfold decode
    dsimp only
    rw [hs]
    dsimp only
    rw [hmy]
    dsimp only
    rw [hw]
    dsimp only
    rw [hp]
    refine ⟨patternQueryError msg, ?_, rfl, rfl⟩
    simp [patternQueryError]

theorem decode_storage_failure_recorded_witness :
    ∃ err ∈ (decode stWMIDown 2026 (str "1HGCM82633A004352") {}).errors,
      err.code = ErrorCode.QUERY_ERROR ∧ err.category = ErrorCategory.database :=
  (decode_storage_failure_recorded stWMIDown 2026 (str "1HGCM82633A004352") {}
      { year := 2003, source := YearSource.position, confidence := 1 }
      (by decide) (by decide)).1 (str "db down") rfl

/-- Claim C3, counterexample: an otherwise-valid 17-character VIN supplied in
lowercase is not rejected by structural validation inside `decode`, because
`decode` itself uppercases and trims the input first (decode.ts line 74) —
even though the raw string would fail `validateStructure`. -/
theorem decode_lowercase_vin_not_rejected :
    validateStructure (str "1hgcm82633a004352") ≠ [] ∧
    ((decode stNone 2026 (str "1hgcm82633a004352") {}).errors.all
      (fun e => e.category != ErrorCategory.structural)) = true ∧
    (decode stNone 2026 (str "1hgcm82633a004352") {}).components.checkDigit.isSome = true :=
  ⟨by decide, by decide, by decide⟩

/-- Claim C3, amended: `decode` itself normalises the VIN — the result's
`vin` field is the uppercased and trimmed input, and structural validation
(whose success is visible as the presence of the check-digit component)
applies to that normalised string, not to the string as received. -/
theorem decode_normalizes_before_validation (st : Storage) (cy : Int) (vin : List Char)
    (opts : DecodeOptions) :
    (decode st cy vin opts).vin = cleanVIN vin ∧
    (decode st cy vin opts).components.checkDigit.isSome
      = (validateStructure (cleanVIN vin)).isEmpty := by
  unfold decode
  dsimp only
  rcases h1 : validateStructure (cleanVIN vin) with _ | ⟨e, es⟩
  · rcases h2 : decodeModelYear cy opts (cleanVIN vin) with _ | my
    · simp
    · cases h3 : st.getWMI (extractWMI (cleanVIN vin)) with
      | error emsg => simp
      | ok o =>
        cases o with
        | none => simp
        | some w =>
          cases h4 : getPatternMatches st (extractWMI (cleanVIN vin)) my.year
              ((cleanVIN vin).drop 3 |>.take 6) ((cleanVIN vin).drop 9 |>.take 8) with
          | error emsg => simp [h4]
          | ok ps =>
            cases ps with
            | nil => simp [h4]
            | cons p0 prest => simp [h4]
  · simp

/-- Claim C4: `validateCheckDigit` computes the weighted transliteration sum
with weights `[8,7,6,5,4,3,2,10,0,9,8,7,6,5,4,3,2]`, reduces it mod 11 and
expects `X` for remainder 10, else the decimal digit; VIN
`1HGCM82633A004352` validates, its altered form `1HGCM82643A004352` does
not; and in `decode` a mismatch only appends a warning-severity
`INVALID_CHECK_DIGIT` error while the check-digit component is recorded and
decoding continues to the model-year stage. -/
theorem validateCheckDigit_weighted_mod11 :
    (∀ vin, vin.length = 17 →
      (validateCheckDigit vin).expected
        = (if checkSumSpec vin % 11 = 10 then 'X'
           else Char.ofNat (48 + checkSumSpec vin % 11))) ∧
    (validateCheckDigit (str "1HGCM82633A004352")).isValid = true ∧
    (validateCheckDigit (str "1HGCM82643A004352")).isValid = false ∧
    (∀ st cy vin opts,
      validateStructure (cleanVIN vin) = [] →
      (validateCheckDigit (cleanVIN vin)).isValid = false →
      (∃ e ∈ (decode st cy vin opts).errors,
          e.code = ErrorCode.INVALID_CHECK_DIGIT ∧ e.severity = ErrorSeverity.warning) ∧
      (decode st cy vin opts).components.checkDigit
          = some (validateCheckDigit (cleanVIN vin)) ∧
      (∀ my, decodeModelYear cy opts (cleanVIN vin) = some my →
        (decode st cy vin opts).components.modelYear = some my)) := by
  refine ⟨?_, by decide, by decide, ?_⟩
  · intro vin h
    exact (validateCheckDigit_formula vin h).1
  · intro st cy vin opts hs hcd
    exact decode_checkDigit_warning st cy vin opts hs hcd

/-- Claim C5 (code bug): `determineModelYear` returns `none` for a VIN whose
index-9 character is `Y`, although the claim (and the source's own comments
and dead `code === 'Y'` branch) expect the year 2030: both assignment loops
run `String.fromCharCode(80 + i)` with `i < 9` and stop at `X`.  The
immediately neighbouring characters still resolve. -/
theorem determineModelYear_Y_gap :
    determineModelYear 2026 (str "1HGCM8263YA004352") = none ∧
    (determineModelYear 2026 (str "1HGCM8263XA004352")).isSome = true ∧
    (determineModelYear 2026 (str "1HGCM82631A004352")).isSome = true :=
  ⟨by decide, by decide, by decide⟩

/-- Claim C6, counterexample: a caller-supplied `options.modelYear = 0` is
falsy, so the override is ignored and positional derivation runs instead —
the result is not `{year: 0, source: override, confidence: 1}`. -/
theorem decode_modelYear_zero_override_ignored :
    (decode stNone 2026 (str "1HGCM82633A004352") { modelYear := some 0 }).components.modelYear
      = some { year := 2003, source := YearSource.position, confidence := 1 } ∧
    (decode stNone 2026 (str "1HGCM82633A004352") { modelYear := some 0 }).components.modelYear
      ≠ some { year := 0, source := YearSource.override, confidence := 1 } :=
  ⟨by decide, by decide⟩

/-- Claim C6, amended: for every VIN that passes structural validation and
every nonzero caller-supplied `options.modelYear = Y`, the result's
`components.modelYear` equals `{year: Y, source: override, confidence: 1}`,
regardless of storage behaviour and of what positional derivation would have
produced. -/
theorem decode_modelYear_override_roundtrip (st : Storage) (cy : Int) (vin : List Char)
    (opts : DecodeOptions) (y : Int) (hy : opts.modelYear = some y) (hy0 : y ≠ 0)
    (hs : validateStructure (cleanVIN vin) = []) :
    (decode st cy vin opts).components.modelYear
      = some { year := y, source := YearSource.override, confidence := 1 } := by
  unfold decode
  dsimp only
  rw [hs]
  have h2 : decodeModelYear cy opts (cleanVIN vin)
      = some { year := y, source := YearSource.override, confidence := 1 } := by
    unfold decodeModelYear
    rw [hy]
    simp [hy0]
  rw [h2]
  cases h3 : st.getWMI (extractWMI (cleanVIN vin)) with
  | error emsg => simp
  | ok o =>
    cases o with
    | none => simp
    | some w =>
      cases h4 : getPatternMatches st (extractWMI (cleanVIN vin))
          ({ year := y, source := YearSource.override, confidence := 1 } : ModelYearResult).year
          ((cleanVIN vin).drop 3 |>.take 6) ((cleanVIN vin).drop 9 |>.take 8) with
      | error emsg => simp [h4]
      | ok ps =>
        cases ps with
        | nil => simp [h4]
        | cons p0 prest => simp [h4]

theorem decode_modelYear_override_roundtrip_witness :
    (decode stNone 2026 (str "1HGCM82633A004352")
        { modelYear := some 2024 }).components.modelYear
      = some { year := 2024, source := YearSource.override, confidence := 1 } :=
  decode_modelYear_override_roundtrip stNone 2026 (str "1HGCM82633A004352")
    { modelYear := some 2024 } 2024 rfl (by decide) (by decide)

/-- Claim C7: for every ordinary (non-plant-shaped) pattern and input,
`calculateConfidence` returns 0 when `matchesPattern` fails and otherwise
the sum of the consumed units' weights (exactly matching literal 1.0,
explicit-list class 0.8, range class 0.7, wildcard 0.5) divided by the
number of consumed units, clamped to [0, 1]; the result always lies in
[0, 1]; and a fully literal pattern matching exactly scores 1.0. -/
theorem calculateConfidence_spec :
    (∀ p i, plantShaped p = false →
        calculateConfidence p i =
          (if matchesPattern i (actualOf p) then specScore (consumedUnits (actualOf p) i)
           else 0)) ∧
    (∀ p i, 0 ≤ calculateConfidence p i ∧ calculateConfidence p i ≤ 1) ∧
    (∀ p, p ≠ [] → p.all isLiteralChar = true → calculateConfidence p p = 1) := by
  refine ⟨?_, ?_, ?_⟩
  · intro p i hps
    unfold calculateConfidence
    split
    · rename_i hpi
      rcases hpi with hp | hi
      · subst hp
        have : matchesPattern i (actualOf ([] : List Char)) = false := by
          simp [matchesPattern, actualOf, splitOnBar]
        rw [this]
        simp
      · subst hi
        have : matchesPattern ([] : List Char) (actualOf p) = false := by
          simp [matchesPattern]
        rw [this]
        simp
    · rename_i hpi
      have hcond : ¬ (metadataOf p ≠ [] ∧ (actualOf p).length = 5) := by
        simpa [plantShaped] using hps
      rw [if_neg hcond]
      by_cases hm : matchesPattern i (actualOf p)
      · rw [if_neg (by simp [hm]), if_pos hm]
        have hc := confWalk_spec (actualOf p) i
        unfold specScore
        dsimp only
        rw [← hc.1, ← hc.2]
      · rw [if_pos (by simp [hm]), if_neg (by simp [hm])]
  · intro p i
    unfold calculateConfidence
    dsimp only
    split
    · norm_num
    · split
      · split
        · split_ifs <;> norm_num
        · norm_num
      · split
        · norm_num
        · exact clamp01 _
  · intro p hne hlit
    have hnb : ('|' : Char) ∉ p := by
      intro hm
      have := List.all_eq_true.mp hlit _ hm
      simp [isLiteralChar] at this
    have hsb := splitOnBar_no_bar hnb
    have hao : actualOf p = p := by simp [actualOf, hsb]
    have hmd : metadataOf p = [] := by simp [metadataOf, hsb]
    have hmp : matchesPattern p p = true := by
      unfold matchesPattern
      rw [if_neg (by simp [hne])]
      simp only [hao, hmd]
      simp [matchesSimplePattern, mspWalk_lit_refl hlit]
    unfold calculateConfidence
    rw [if_neg (by simp [hne])]
    simp only [hao, hmd]
    rw [if_neg (by simp)]
    rw [if_neg (by simp [hmp])]
    have hc := confWalk_spec p p
    rw [consumedUnits_lit_refl hlit] at hc
    have hlen : ((p.length : Rat)) ≠ 0 := by
      simp
      intro hh
      exact hne hh
    have hscore : (confWalk p p).exact * 1 + (confWalk p p).cls + (confWalk p p).wild * 0.5
        = (p.length : Rat) := by rw [hc.1, sumWeights_lits]
    have htot : (confWalk p p).total = (p.length : Rat) := by
      rw [hc.2]
      simp
    rw [hscore, htot, div_self hlen]
    unfold jsMin jsMax
    norm_num

/-- Claim C8: in `matchesSimplePattern`, a trailing `*` wildcard matches one
or more remaining input characters (after a literal prefix that matches
itself); `matchesSimplePattern("B", "[A-E]")` is true,
`matchesSimplePattern("F", "[A-E]")` is false, and
`matchesSimplePattern("12345", "****9")` is false. -/
theorem matchesSimplePattern_spec :
    (∀ pre rest : List Char,
        pre.all (fun c => decide (c ≠ '*' ∧ c ≠ '[')) = true → rest ≠ [] →
        matchesSimplePattern (pre ++ rest) (pre ++ ['*']) = true) ∧
    matchesSimplePattern (str "B") (str "[A-E]") = true ∧
    matchesSimplePattern (str "F") (str "[A-E]") = false ∧
    matchesSimplePattern (str "12345") (str "****9") = false := by
  refine ⟨?_, by decide, by decide, by decide⟩
  intro pre
  induction pre with
  | nil =>
    intro rest hall hne
    cases rest with
    | nil => exact absurd rfl hne
    | cons r rs => simp [matchesSimplePattern, mspWalk]
  | cons c pre ih =>
    intro rest hall hne
    simp only [List.all_cons, Bool.and_eq_true, decide_eq_true_eq] at hall
    obtain ⟨⟨h1, h2⟩, hr⟩ := hall
    have ih2 := ih rest (by simpa [List.all_eq_true] using hr) hne
    simpa [matchesSimplePattern, mspWalk, h1, h2] using ih2

/-- Claim C9, counterexample: against `stP` a `Model` row exists (so a
primary schema exists in the claim's sense), its schema name being the empty
string; the `if (primarySchema)` truthiness test then takes the halving
branch instead of the schema gate, and a plant-element match from schema `X`
— different from the `Model` row's schema — appears in the output of the
pipeline. -/
theorem getPatternMatches_plant_gate_counterexample :
    (resolvedSortedRows stP (str "1HG") 2003).toOption.map
        (fun rows => rows.any (fun r => r.row.ElementName == str "Model")) = some true ∧
    (resolvedSortedRows stP (str "1HG") 2003).toOption.map
        (fun rows => primaryOf rows (str "CM8263") (str "3A004352")) = some (some []) ∧
    (getPatternMatches stP (str "1HG") 2003 (str "CM8263") (str "3A004352")).toOption.map
        (fun l => l.any (fun m => isPlantElement m.element && decide (m.schema ≠ [])))
      = some true :=
  ⟨by decide, by decide, by decide⟩

/-- Claim C9, amended: every match returned by the pattern pipeline has
confidence above 0.5, except plant-element matches, which have confidence
above 0.3; when the primary schema is truthy (a `Model` row exists and its
schema name is non-empty), every surviving plant-element match comes from
that schema (others are forced to confidence 0 and filtered out); when it is
not truthy, every surviving plant-element match's confidence is its base
confidence halved. -/
theorem getPatternMatches_thresholds (st : Storage) (wmi : List Char) (yr : Int)
    (vds vis : List Char) (rows : List ResolvedRow)
    (hok : resolvedSortedRows st wmi yr = Except.ok rows) :
    getPatternMatches st wmi yr vds vis
        = Except.ok (getPatternMatchesPost
            (rows.map (mkRaw (primaryOf rows vds vis) vds vis))) ∧
    ∀ m ∈ getPatternMatchesPost (rows.map (mkRaw (primaryOf rows vds vis) vds vis)),
      (isPlantElement m.element = true →
        (0.3 : Rat) < m.confidence ∧
        (jsTruthyOptStr (primaryOf rows vds vis) = true →
          m.schema = (primaryOf rows vds vis).getD []) ∧
        (jsTruthyOptStr (primaryOf rows vds vis) = false →
          m.confidence = rowBaseConfidence m.metadata.rawPattern vds vis * 0.5)) ∧
      (isPlantElement m.element = false → (0.5 : Rat) < m.confidence) := by
  constructor
  · unfold getPatternMatches getRawPatternMatches
    rw [hok]
  · intro m hm
    obtain ⟨r, hr, hthr, rfl⟩ := mem_getPatternMatchesPost hm
    rw [List.mem_map] at hr
    obtain ⟨row, hrow, rfl⟩ := hr
    unfold thresholdKeep at hthr
    constructor
    · intro hplant
      have hplant2 :
          isPlantElement (mkRaw (primaryOf rows vds vis) vds vis row).elementName = true := by
        simpa [transformPatternMatch] using hplant
      rw [if_pos hplant2] at hthr
      have hconf : (0.3 : Rat) < (mkRaw (primaryOf rows vds vis) vds vis row).confidence := by
        exact_mod_cast of_decide_eq_true hthr
      refine ⟨by simpa [transformPatternMatch] using hconf, ?_, ?_⟩
      · intro htruthy
        by_cases hsch : row.row.SchemaName = (primaryOf rows vds vis).getD []
        · simpa [transformPatternMatch, mkRaw] using hsch
        · exfalso
          have : (mkRaw (primaryOf rows vds vis) vds vis row).confidence = 0 := by
            have hpe : isPlantElement row.row.ElementName = true := by
              simpa [mkRaw] using hplant2
            simp [mkRaw, hpe, htruthy, hsch]
          rw [this] at hconf
          norm_num at hconf
      · intro hfalsy
        have hpe : isPlantElement row.row.ElementName = true := by
          simpa [mkRaw] using hplant2
        simp [transformPatternMatch, mkRaw, hpe, hfalsy]
    · intro hnot
      have hnot2 :
          isPlantElement (mkRaw (primaryOf rows vds vis) vds vis row).elementName = false := by
        simpa [transformPatternMatch] using hnot
      rw [if_neg (by simp [hnot2])] at hthr
      have hconf : (0.5 : Rat) < (mkRaw (primaryOf rows vds vis) vds vis row).confidence := by
        exact_mod_cast of_decide_eq_true hthr
      simpa [transformPatternMatch] using hconf

theorem getPatternMatches_thresholds_witness :
    (0.3 : Rat) < plantMatchX.confidence ∧
    plantMatchX.confidence
      = rowBaseConfidence plantMatchX.metadata.rawPattern (str "CM8263") (str "3A004352") * 0.5 := by
  have h := (getPatternMatches_thresholds stP (str "1HG") 2003 (str "CM8263") (str "3A004352")
      rowsP rfl).2 plantMatchX (by decide) |>.1 (by decide)
  exact ⟨h.1, h.2.2 (by decide)⟩

/-- Claim C10, counterexample: the claim asserts the 30-year window for every
`currentYear ≥ 2009`, but with `currentYear = 2039` the character `A` still
resolves to 2010, which lies below the claimed lower bound
`currentYear + 1 - 29 = 2011`. -/
theorem determineModelYear_outside_window :
    determineModelYear 2039 (str "1HGCM8263AA004352")
      = some { year := 2010, source := YearSource.position, confidence := 1 } ∧
    (2010 : Int) < 2039 + 1 - 29 :=
  ⟨by decide, by decide⟩

/-- Claim C10, amended: for `2009 ≤ currentYear ≤ 2038`, every positional
result of `determineModelYear` lies in the 30-year window ending at
`currentYear + 1`: the second-cycle entries overwrite the first-cycle
entries for the same characters, so the base year is in [2010, 2039] and
the subtract-30 disambiguation lands in the window. -/
theorem determineModelYear_window (cy : Int) (vin : List Char) (r : ModelYearResult)
    (hlo : 2009 ≤ cy) (hhi : cy ≤ 2038) (h : determineModelYear cy vin = some r) :
    cy + 1 - 29 ≤ r.year ∧ r.year ≤ cy + 1 := by
  unfold determineModelYear at h
  cases h9 : vin.get? 9 with
  | none => rw [h9] at h; cases h
  | some c0 =>
    rw [h9] at h
    dsimp only at h
    cases hy : yearLookup c0.toUpper with
    | none => rw [hy] at h; cases h
    | some baseYear =>
      rw [hy] at h
      have hb := yearLookup_bounds _ _ hy
      dsimp only at h
      cases h
      dsimp only
      split
      · omega
      · omega

theorem determineModelYear_window_witness :
    (2026 : Int) + 1 - 29
        ≤ ({ year := 2003, source := YearSource.position, confidence := 1 } : ModelYearResult).year ∧
    ({ year := 2003, source := YearSource.position, confidence := 1 } : ModelYearResult).year
      ≤ (2026 : Int) + 1 :=
  determineModelYear_window 2026 (str "1HGCM82633A004352")
    { year := 2003, source := YearSource.position, confidence := 1 }
    (by decide) (by decide) (by decide)

end Corgi
